import Mathlib

/-!
Verification of the exception-trace / timestamp synchronization engine of
`itm-tools` (`src/bin/excevt.rs`).

The program keeps the running tick counter in a single mutable `u32` named
`now`, using two reserved sentinel encodings (`u32::MAX` for "timestamps
disabled", `u32::MAX - 1` for "synchronization unknown").  The main loop pulls
packets (or decode errors) from the ITM stream, performs one or two packets of
lookahead after an `ExceptionTrace`, and emits one report line per exception
trace.  We embed the loop as a recursive function `proc` over the list of
stream items; the one-slot pushback buffer (`next = Some(packet)`) is embedded
by leaving the stashed packet at the head of the remaining list, which is
semantically identical because the top-of-loop pull returns a buffered packet
unchanged.  All `u32` arithmetic is embedded on `Nat` with explicit reduction
modulo `2^32` (release-profile wrapping semantics); the places where a
wrapping addition actually occurs are recorded in the `adds` field so that
overflow/sentinel claims can be stated.
-/

namespace Excevt

/-- The lifecycle phase of an exception trace packet (`itm::packet::Function`). -/
inductive Function where
  | enter
  | exit
  | ret
deriving DecidableEq, Repr

/-- An exception trace packet: vector number (a `u16`) and lifecycle phase
(`itm::packet::ExceptionTrace`, as consumed via `.number()` and `.function()`). -/
structure ExceptionTrace where
  number : Nat
  function : Function
deriving DecidableEq, Repr

/-- The decoded packets that matter to `excevt` (`itm::Packet`).  A local
timestamp carries its `delta()` (a `u32`) and `is_precise()` flag; every other
packet kind is collapsed into `other`, which `run` treats as fatal. -/
inductive Packet where
  | overflow
  | exceptionTrace (et : ExceptionTrace)
  | localTimestamp (delta : Nat) (precise : Bool)
  | other
deriving DecidableEq, Repr

/-- One pull from the ITM stream: either a decode error (`Some(Err(_))`) or a
decoded packet (`Some(Ok(_))`).  End of stream (`None`) is the end of the list. -/
inductive Item where
  | err
  | pkt (p : Packet)
deriving DecidableEq, Repr

/-- The instant classification attached to a report (the `Instant` enum of
`excevt.rs`, lines 24-28). -/
inductive Instant where
  | Unknown
  | Reset
  | Known (now : Nat) (precise : Bool)
deriving DecidableEq, Repr

/-- One call to `report`: the exception trace and its instant classification. -/
structure Report where
  et : ExceptionTrace
  instant : Instant
deriving DecidableEq, Repr

/-- The three program points where `now` enters a `u32` addition:
`single` is line 123 (`now + lt.delta()` in the single-trace lookahead),
`double` is line 137 (`now + lt.delta()` in the double-trace lookahead),
`standalone` is line 229 (`now += 2_000_000`). -/
inductive AddSite where
  | single
  | double
  | standalone
deriving DecidableEq, Repr

/-- The observable outcome of the main loop: the reports emitted in order, the
final value of `now` when the loop exits, and the trace of `(site, now)` pairs
recorded at each `u32` addition on `now`. -/
structure Out where
  reports : List Report
  fin : Nat
  adds : List (AddSite × Nat)
deriving DecidableEq, Repr

/-- `2^32`, the wrapping domain of Rust `u32` arithmetic. -/
def U32_MOD : Nat := 4294967296

/-- `const INSTANT_DISABLED: u32 = u32::MAX;` (line 21). -/
def INSTANT_DISABLED : Nat := 4294967295

/-- `const INSTANT_UNKNOWN: u32 = u32::MAX - 1;` (line 22). -/
def INSTANT_UNKNOWN : Nat := 4294967294

/-- `const MAX: u32 = 1_000_000_000;` (line 68), the tick wraparound domain. -/
def MAX : Nat := 1000000000

/-- Wrapping `u32` addition result: reduce modulo `2^32`. -/
def wrap32 (n : Nat) : Nat := n % U32_MOD

/-- A `now` encoding denotes a real (`Known`) counter value exactly when it is
neither of the two sentinels. -/
def isKnownState (n : Nat) : Prop := n ≠ INSTANT_DISABLED ∧ n ≠ INSTANT_UNKNOWN

instance (n : Nat) : Decidable (isKnownState n) := by
  unfold isKnownState
  infer_instance

/-- The lookahead position inside the `ExceptionTrace` arm of the main loop:
`idle` is the top of `'main` (line 77, no buffered trace), `one et` is the
point right after the first lookahead pull `stream.next()` of line 114 was
started for `et`, and `two et et2` the point right after the second lookahead
pull of line 133 was started for the pair `et`, `et2`. -/
inductive Pending where
  | idle
  | one (et : ExceptionTrace)
  | two (et et2 : ExceptionTrace)
deriving DecidableEq, Repr

/-- The main loop of `run` (`excevt.rs` lines 77-243), as a function from the
current `now`, the lookahead position and the remaining stream items to the
emitted reports, the final `now`, and the addition trace.  The one-slot
pushback buffer (`next = Some(packet)`, lines 156/190) is embedded by fusing
the stash with the single loop iteration that immediately consumes it, which
is semantically identical because `next.take()` (line 78) returns the stashed
packet unchanged.

Branch map (line numbers refer to `src/bin/excevt.rs`):
* `idle, []` — `None` from the stream at top level: `break 'main` (line 96).
* `idle, Item.err` — `Some(Err(e))` at top level (lines 85-93): log, degrade
  to `INSTANT_UNKNOWN` unless disabled, keep pulling.
* `idle, overflow` — lines 102-108.
* `idle, localTimestamp` — lines 221-235, the standalone-timestamp arm; the
  redundant `now != INSTANT_DISABLED` conjunct of line 226 is kept, and the
  `now += 2_000_000` of line 229 is the wrapping `u32` addition, recorded in
  `adds`.
* `idle, other` — lines 237-241: log and `break` with `now` unchanged.
* `idle, exceptionTrace` with `now = INSTANT_DISABLED` — lines 210-218: no
  lookahead; report `Unknown` (line 215), then `now = INSTANT_UNKNOWN`
  (line 218).
* `idle, exceptionTrace` otherwise — enter the lookahead of line 114.
* `one et, localTimestamp` — lines 115-129: `Reset` if `now` was the
  `INSTANT_UNKNOWN` sentinel, else advance `now` and report `Known`.
* `one et, exceptionTrace` — line 132: enter the second lookahead pull.
* `one et, err` — lines 196-200 then 215/218: report `et` as `Unknown` and
  degrade `now`.
* `one et, []` — lines 202-208: flush `et` as `Unknown`, `break` (so `fin`
  is the unchanged `now`).
* `one et, overflow` — lines 189-193: stash the packet, report `et` as
  `Unknown`, set `now = INSTANT_UNKNOWN` (line 218), `continue`; the next
  iteration (lines 102-108) consumes the stashed `Overflow` and leaves
  `now = INSTANT_UNKNOWN`.  The two iterations are fused here.
* `one et, other` — lines 189-193 then 215/218, then the next iteration hits
  the fatal arm (lines 237-241) and breaks with `now = INSTANT_UNKNOWN`;
  fused likewise.
* `two et et2, localTimestamp` — lines 134-152: advance `now` once and report
  both traces with it, the first one always imprecise; note that unlike
  lines 116-119 this path has no `INSTANT_UNKNOWN` check.
* `two et et2, err` — lines 162-166 then 179-185.
* `two et et2, []` — lines 169-175: flush both as `Unknown`, `break`.
* `two et et2, exceptionTrace et3` — lines 155-159 then 179-185: stash `et3`,
  report both as `Unknown`, `now = INSTANT_UNKNOWN`, `continue`; the next
  iteration takes `et3` from the stash and (since
  `INSTANT_UNKNOWN ≠ INSTANT_DISABLED`) starts a fresh lookahead for it;
  fused into `Pending.one et3`.
* `two et et2, overflow` / `two et et2, other` — lines 155-159 then 179-185,
  then the stashed packet's own iteration; fused as in the `one` state. -/
def proc : Nat → Pending → List Item → Out
  | now, Pending.idle, [] => ⟨[], now, []⟩
  | now, Pending.idle, Item.err :: rest =>
      if now ≠ INSTANT_DISABLED then proc INSTANT_UNKNOWN Pending.idle rest
      else proc now Pending.idle rest
  | now, Pending.idle, Item.pkt Packet.overflow :: rest =>
      if now ≠ INSTANT_DISABLED then proc INSTANT_UNKNOWN Pending.idle rest
      else proc now Pending.idle rest
  | now, Pending.idle, Item.pkt (Packet.localTimestamp d _) :: rest =>
      if now = INSTANT_DISABLED then
        proc INSTANT_UNKNOWN Pending.idle rest
      else if now ≠ INSTANT_DISABLED ∧ d = 1999999 then
        let o := proc (wrap32 (now + 2000000)) Pending.idle rest
        ⟨o.reports, o.fin, (AddSite.standalone, now) :: o.adds⟩
      else
        proc INSTANT_UNKNOWN Pending.idle rest
  | now, Pending.idle, Item.pkt Packet.other :: _ => ⟨[], now, []⟩
  | now, Pending.idle, Item.pkt (Packet.exceptionTrace et) :: rest =>
      if now ≠ INSTANT_DISABLED then
        proc now (Pending.one et) rest
      else
        let o := proc INSTANT_UNKNOWN Pending.idle rest
        ⟨⟨et, Instant.Unknown⟩ :: o.reports, o.fin, o.adds⟩
  | now, Pending.one et, Item.pkt (Packet.localTimestamp d p) :: rest =>
      if now = INSTANT_UNKNOWN then
        let o := proc 0 Pending.idle rest
        ⟨⟨et, Instant.Reset⟩ :: o.reports, o.fin, o.adds⟩
      else
        let now2 := wrap32 (now + d) % MAX
        let o := proc now2 Pending.idle rest
        ⟨⟨et, Instant.Known now2 p⟩ :: o.reports, o.fin,
          (AddSite.single, now) :: o.adds⟩
  | now, Pending.one et, Item.pkt (Packet.exceptionTrace et2) :: rest =>
      proc now (Pending.two et et2) rest
  | _, Pending.one et, Item.err :: rest =>
      let o := proc INSTANT_UNKNOWN Pending.idle rest
      ⟨⟨et, Instant.Unknown⟩ :: o.reports, o.fin, o.adds⟩
  | now, Pending.one et, [] => ⟨[⟨et, Instant.Unknown⟩], now, []⟩
  | _, Pending.one et, Item.pkt Packet.overflow :: rest =>
      let o := proc INSTANT_UNKNOWN Pending.idle rest
      ⟨⟨et, Instant.Unknown⟩ :: o.reports, o.fin, o.adds⟩
  | _, Pending.one et, Item.pkt Packet.other :: _ =>
      ⟨[⟨et, Instant.Unknown⟩], INSTANT_UNKNOWN, []⟩
  | now, Pending.two et et2, Item.pkt (Packet.localTimestamp d p) :: rest =>
      let now2 := wrap32 (now + d) % MAX
      let o := proc now2 Pending.idle rest
      ⟨⟨et, Instant.Known now2 false⟩ :: ⟨et2, Instant.Known now2 p⟩ :: o.reports,
        o.fin, (AddSite.double, now) :: o.adds⟩
  | _, Pending.two et et2, Item.pkt (Packet.exceptionTrace et3) :: rest =>
      let o := proc INSTANT_UNKNOWN (Pending.one et3) rest
      ⟨⟨et, Instant.Unknown⟩ :: ⟨et2, Instant.Unknown⟩ :: o.reports, o.fin, o.adds⟩
  | _, Pending.two et et2, Item.err :: rest =>
      let o := proc INSTANT_UNKNOWN Pending.idle rest
      ⟨⟨et, Instant.Unknown⟩ :: ⟨et2, Instant.Unknown⟩ :: o.reports, o.fin, o.adds⟩
  | now, Pending.two et et2, [] =>
      ⟨[⟨et, Instant.Unknown⟩, ⟨et2, Instant.Unknown⟩], now, []⟩
  | _, Pending.two et et2, Item.pkt Packet.overflow :: rest =>
      let o := proc INSTANT_UNKNOWN Pending.idle rest
      ⟨⟨et, Instant.Unknown⟩ :: ⟨et2, Instant.Unknown⟩ :: o.reports, o.fin, o.adds⟩
  | _, Pending.two et et2, Item.pkt Packet.other :: _ =>
      ⟨[⟨et, Instant.Unknown⟩, ⟨et2, Instant.Unknown⟩], INSTANT_UNKNOWN, []⟩

/-- The initial value of `now` (lines 69-75): the `INSTANT_UNKNOWN` sentinel if
`-t` was given, the `INSTANT_DISABLED` sentinel otherwise. -/
def initNow (timestamp : Bool) : Nat :=
  if timestamp then INSTANT_UNKNOWN else INSTANT_DISABLED

/-- The whole resolver run from a given tracker value: process the stream from
the top of `'main` with no buffered trace. -/
def procRun (now : Nat) (items : List Item) : Out := proc now Pending.idle items

example : procRun 0 [] = ⟨[], 0, []⟩ := rfl

example :
    procRun INSTANT_UNKNOWN
      [Item.pkt (Packet.exceptionTrace ⟨15, Function.enter⟩),
        Item.pkt (Packet.localTimestamp 3 true)] =
    ⟨[⟨⟨15, Function.enter⟩, Instant.Reset⟩], 0, []⟩ := by decide

/-- `2^16`, the wrapping domain of Rust `u16` arithmetic. -/
def U16_MOD : Nat := 65536

/-- The `Display` impl of `ExceptionNumber` (lines 282-299).  The named
reserved vectors print their table names; every other vector number falls into
the catch-all arm `n => write!(f, "IRQ({})", n - 16)`, where `n - 16` is a
`u16` subtraction, embedded with wrapping (release-profile) semantics as
`(n + 2^16 - 16) % 2^16`. -/
def exceptionName (n : Nat) : String :=
  if n = 0 then "Thread"
  else if n = 1 then "Reset"
  else if n = 2 then "NMI"
  else if n = 3 then "HardFault"
  else if n = 4 then "MemManage"
  else if n = 5 then "BusFault"
  else if n = 6 then "UsageFault"
  else if n = 11 then "SVCall"
  else if n = 12 then "DebugMonitor"
  else if n = 14 then "PendSV"
  else if n = 15 then "SysTick"
  else "IRQ(" ++ Nat.repr ((n + U16_MOD - 16) % U16_MOD) ++ ")"

/-- The arrow character chosen for each lifecycle phase (lines 249-253). -/
def functionChar : Function → Char
  | Function.enter => '→'
  | Function.exit => '←'
  | Function.ret => '↓'

/-- Rust's `{:09}` format on a `u32`: the decimal representation, left-padded
with `'0'` to at least 9 characters. -/
def pad9 (n : Nat) : String :=
  let s := Nat.repr n
  if s.length < 9 then String.mk (List.replicate (9 - s.length) '0') ++ s else s

/-- The body of `report` (lines 248-277) without the I/O plumbing: the single
line written for one exception trace and its instant classification. -/
def reportLine (et : ExceptionTrace) (i : Instant) : String :=
  let f := functionChar et.function
  let en := exceptionName et.number
  match i with
  | Instant.Unknown => " ????????? " ++ String.singleton f ++ " " ++ en
  | Instant.Reset => "!000000000 " ++ String.singleton f ++ " " ++ en
  | Instant.Known now precise =>
      String.singleton (if precise then '=' else '<') ++ pad9 now ++ " " ++
        String.singleton f ++ " " ++ en

/-- The header line written before the loop (line 64). -/
def headerLine : String := " TIMESTAMP   EXCEPTION"

/-- The full standard-output contents of a run: the header, then one line per
report, in emission order. -/
def runOutput (timestamp : Bool) (items : List Item) : List String :=
  headerLine ::
    (procRun (initNow timestamp) items).reports.map (fun r => reportLine r.et r.instant)

/-- Formalisation of the spec's line-format table, written from the spec's
words: an Unknown row is `" ????????? {arrow} {name}"`, a Reset row is
`"!000000000 {arrow} {name}"`, a Known row is `"{marker}{now:09d} {arrow}
{name}"` with marker `=` when precise and `<` when imprecise, and the arrow is
`→` for Enter, `←` for Exit, `↓` for Return. -/
def specFormatLine (r : Report) : String :=
  let arrow : Char :=
    match r.et.function with
    | Function.enter => '→'
    | Function.exit => '←'
    | Function.ret => '↓'
  let name := exceptionName r.et.number
  match r.instant with
  | Instant.Unknown => " ????????? " ++ String.singleton arrow ++ " " ++ name
  | Instant.Reset => "!000000000 " ++ String.singleton arrow ++ " " ++ name
  | Instant.Known now precise =>
      String.singleton (if precise then '=' else '<') ++ pad9 now ++ " " ++
        String.singleton arrow ++ " " ++ name

example : pad9 42 = "000000042" := rfl
example : pad9 1001000000 = "1001000000" := rfl
example : exceptionName 16 = "IRQ(0)" := rfl
example : exceptionName 7 = "IRQ(65527)" := rfl

/-- An instant classification whose `Known` payload, if any, lies inside the
tick wraparound domain `[0, MAX)`. -/
def instantInRange : Instant → Prop
  | Instant.Known n _ => n < MAX
  | _ => True

instance (i : Instant) : Decidable (instantInRange i) := by
  unfold instantInRange
  rcases i with _ | _ | ⟨n, p⟩ <;> infer_instance

/-- Every `Known` instant ever passed to `report` carries a value below `MAX`:
both lookahead paths compute it as `(… ) % MAX`, and the reset path uses `0`. -/
theorem proc_reports_in_range :
    ∀ (items : List Item) (now : Nat) (pending : Pending),
      ∀ r ∈ (proc now pending items).reports, instantInRange r.instant := by
  intro items
  induction items with
  | nil =>
    intro now pending r hr
    rcases pending with _ | et | ⟨et, et2⟩ <;> simp [proc] at hr
    · simp [hr, instantInRange]
    · rcases hr with rfl | rfl <;> simp [instantInRange]
  | cons head rest ih =>
    intro now pending r hr
    have hmod : ∀ m : Nat, instantInRange (Instant.Known (m % MAX) true) := by
      intro m
      simp [instantInRange]
      exact Nat.mod_lt _ (by decide)
    rcases head with _ | pk
    · -- decode error
      rcases pending with _ | et | ⟨et, et2⟩
      · simp only [proc] at hr
        split at hr <;> exact ih _ _ r hr
      · simp [proc] at hr
        rcases hr with rfl | hr
        · simp [instantInRange]
        · exact ih _ _ r hr
      · simp [proc] at hr
        rcases hr with rfl | rfl | hr
        · simp [instantInRange]
        · simp [instantInRange]
        · exact ih _ _ r hr
    · rcases pk with _ | et3 | ⟨d, p⟩ | _
      · -- Overflow packet
        rcases pending with _ | et | ⟨et, et2⟩
        · simp only [proc] at hr
          split at hr <;> exact ih _ _ r hr
        · simp [proc] at hr
          rcases hr with rfl | hr
          · simp [instantInRange]
          · exact ih _ _ r hr
        · simp [proc] at hr
          rcases hr with rfl | rfl | hr
          · simp [instantInRange]
          · simp [instantInRange]
          · exact ih _ _ r hr
      · -- ExceptionTrace packet
        rcases pending with _ | et | ⟨et, et2⟩
        · simp only [proc] at hr
          split at hr
          · exact ih _ _ r hr
          · simp at hr
            rcases hr with rfl | hr
            · simp [instantInRange]
            · exact ih _ _ r hr
        · exact ih _ _ r hr
        · simp [proc] at hr
          rcases hr with rfl | rfl | hr
          · simp [instantInRange]
          · simp [instantInRange]
          · exact ih _ _ r hr
      · -- LocalTimestamp packet
        rcases pending with _ | et | ⟨et, et2⟩
        · simp only [proc] at hr
          split at hr
          · exact ih _ _ r hr
          · split at hr
            · simp at hr
              exact ih _ _ r hr
            · exact ih _ _ r hr
        · simp only [proc] at hr
          split at hr
          · simp at hr
            rcases hr with rfl | hr
            · simp [instantInRange]
            · exact ih _ _ r hr
          · simp at hr
            rcases hr with rfl | hr
            · simp [instantInRange]
              exact Nat.mod_lt _ (by decide)
            · exact ih _ _ r hr
        · simp [proc] at hr
          rcases hr with rfl | rfl | hr
          · simp [instantInRange]
            exact Nat.mod_lt _ (by decide)
          · simp [instantInRange]
            exact Nat.mod_lt _ (by decide)
          · exact ih _ _ r hr
      · -- unexpected packet kind
        rcases pending with _ | et | ⟨et, et2⟩
        · simp [proc] at hr
        · simp [proc] at hr
          simp [hr, instantInRange]
        · simp [proc] at hr
          rcases hr with rfl | rfl <;> simp [instantInRange]

/-- Claim C1 (counterexample): starting `Disabled` (no `-t`), a single
`ExceptionTrace` is reported with `Unknown` classification but leaves the
tracker in the `INSTANT_UNKNOWN` state (line 218), not `Disabled`; after that,
a second `ExceptionTrace` does perform a lookahead and is reported as `Reset`
rather than `Unknown`. -/
theorem c1_counterexample :
    procRun INSTANT_DISABLED [Item.pkt (Packet.exceptionTrace ⟨15, Function.enter⟩)] =
      ⟨[⟨⟨15, Function.enter⟩, Instant.Unknown⟩], INSTANT_UNKNOWN, []⟩ ∧
    INSTANT_UNKNOWN ≠ INSTANT_DISABLED ∧
    (procRun INSTANT_DISABLED
        [Item.pkt (Packet.exceptionTrace ⟨15, Function.enter⟩),
          Item.pkt (Packet.exceptionTrace ⟨15, Function.exit⟩),
          Item.pkt (Packet.localTimestamp 3 true)]).reports =
      [⟨⟨15, Function.enter⟩, Instant.Unknown⟩, ⟨⟨15, Function.exit⟩, Instant.Reset⟩] := by
  refine ⟨by decide, by decide, by decide⟩

/-- Claim C1 (amended): in the `Disabled` state, decode errors and `Overflow`
packets leave the tracker `Disabled`, and an `ExceptionTrace` is reported
immediately with `Unknown` classification without any lookahead pull — but
processing it (like observing a `LocalTimestamp`) moves the tracker to the
`INSTANT_UNKNOWN` state, so `Disabled` is not permanent. -/
theorem c1_disabled_behavior (rest : List Item) (e : ExceptionTrace) (d : Nat) (p : Bool) :
    procRun INSTANT_DISABLED (Item.err :: rest) = procRun INSTANT_DISABLED rest ∧
    procRun INSTANT_DISABLED (Item.pkt Packet.overflow :: rest) = procRun INSTANT_DISABLED rest ∧
    procRun INSTANT_DISABLED (Item.pkt (Packet.exceptionTrace e) :: rest) =
      ⟨⟨e, Instant.Unknown⟩ :: (procRun INSTANT_UNKNOWN rest).reports,
        (procRun INSTANT_UNKNOWN rest).fin, (procRun INSTANT_UNKNOWN rest).adds⟩ ∧
    procRun INSTANT_DISABLED (Item.pkt (Packet.localTimestamp d p) :: rest) =
      procRun INSTANT_UNKNOWN rest := by
  refine ⟨?_, ?_, ?_, ?_⟩ <;> simp [procRun, proc]

/-- Claim C2 (code evaluation at the failing input): from the `Unknown`
tracker state, the double-trace lookahead path (lines 132-151) has no
`INSTANT_UNKNOWN` check, so `[ExceptionTrace, ExceptionTrace,
LocalTimestamp(delta=1)]` computes `(INSTANT_UNKNOWN + 1) % MAX = 294967295`
and emits two `Known` reports fabricated from the sentinel, with no `Reset`
in between. -/
theorem c2_unknown_double_trace_eval :
    procRun INSTANT_UNKNOWN
        [Item.pkt (Packet.exceptionTrace ⟨15, Function.enter⟩),
          Item.pkt (Packet.exceptionTrace ⟨16, Function.exit⟩),
          Item.pkt (Packet.localTimestamp 1 true)] =
      ⟨[⟨⟨15, Function.enter⟩, Instant.Known 294967295 false⟩,
          ⟨⟨16, Function.exit⟩, Instant.Known 294967295 true⟩],
        294967295, [(AddSite.double, INSTANT_UNKNOWN)]⟩ ∧
    ¬ isKnownState INSTANT_UNKNOWN := by
  refine ⟨by decide, by decide⟩

/-- A concrete reachable run for claim C3: resynchronize (`now = 0`), advance
to `now = 999000000` through four paired timestamps, then receive one
standalone wraparound timestamp (`delta = 1_999_999`). -/
def c3Input : List Item :=
  [Item.pkt (Packet.exceptionTrace ⟨3, Function.enter⟩),
    Item.pkt (Packet.localTimestamp 5 true),
    Item.pkt (Packet.exceptionTrace ⟨3, Function.exit⟩),
    Item.pkt (Packet.localTimestamp 249750000 true),
    Item.pkt (Packet.exceptionTrace ⟨3, Function.enter⟩),
    Item.pkt (Packet.localTimestamp 249750000 true),
    Item.pkt (Packet.exceptionTrace ⟨3, Function.exit⟩),
    Item.pkt (Packet.localTimestamp 249750000 true),
    Item.pkt (Packet.exceptionTrace ⟨3, Function.enter⟩),
    Item.pkt (Packet.localTimestamp 249750000 true),
    Item.pkt (Packet.localTimestamp 1999999 true)]

/-- Claim C3 (counterexample): the standalone wraparound path (line 229,
`now += 2_000_000`) performs no reduction modulo `MAX`, so a reachable run
ends with the tracker in a non-sentinel (`Known`) state holding
`1_001_000_000 ≥ MAX`. -/
theorem c3_counterexample :
    (procRun INSTANT_UNKNOWN c3Input).fin = 1001000000 ∧
    MAX ≤ 1001000000 ∧ isKnownState 1001000000 := by
  refine ⟨by decide, by decide, by decide⟩

/-- Claim C3 (amended): every `Known` instant that is reported carries a value
reduced below `MAX` (both lookahead updates compute `(now + delta) % MAX`, and
reset uses `0`), but the standalone wraparound path adds `2_000_000` to `now`
with no reduction modulo `MAX`, so the stored `Known` state itself can reach
values `≥ MAX`. -/
theorem c3_now_reduction :
    (∀ (items : List Item) (now : Nat) (pending : Pending),
        ∀ r ∈ (proc now pending items).reports, instantInRange r.instant) ∧
    (∀ (now d : Nat) (e : ExceptionTrace) (p : Bool) (rest : List Item),
        now ≠ INSTANT_DISABLED → now ≠ INSTANT_UNKNOWN →
        procRun now
            (Item.pkt (Packet.exceptionTrace e) ::
              Item.pkt (Packet.localTimestamp d p) :: rest) =
          ⟨⟨e, Instant.Known (wrap32 (now + d) % MAX) p⟩ ::
              (procRun (wrap32 (now + d) % MAX) rest).reports,
            (procRun (wrap32 (now + d) % MAX) rest).fin,
            (AddSite.single, now) :: (procRun (wrap32 (now + d) % MAX) rest).adds⟩ ∧
        wrap32 (now + d) % MAX < MAX) ∧
    (∀ (now : Nat) (p : Bool) (rest : List Item),
        now < MAX →
        procRun now (Item.pkt (Packet.localTimestamp 1999999 p) :: rest) =
          ⟨(procRun (now + 2000000) rest).reports, (procRun (now + 2000000) rest).fin,
            (AddSite.standalone, now) :: (procRun (now + 2000000) rest).adds⟩) := by
  refine ⟨proc_reports_in_range, ?_, ?_⟩
  · intro now d e p rest h1 h2
    refine ⟨?_, Nat.mod_lt _ (by decide)⟩
    simp [procRun, proc, h1, h2]
  · intro now p rest h
    have h1 : now ≠ INSTANT_DISABLED := by
      simp only [INSTANT_DISABLED]
      simp only [MAX] at h
      omega
    have h2 : wrap32 (now + 2000000) = now + 2000000 := by
      apply Nat.mod_eq_of_lt
      simp only [U32_MOD]
      simp only [MAX] at h
      omega
    simp [procRun, proc, h1, h2]

/-- Witness for the amended claim C3, at the standalone wraparound path from
`now = 999_000_000`: the new state is `1_001_000_000`, unreduced. -/
theorem c3_witness :
    999000000 < MAX ∧
    procRun 999000000 [Item.pkt (Packet.localTimestamp 1999999 true)] =
      ⟨(procRun (999000000 + 2000000) []).reports,
        (procRun (999000000 + 2000000) []).fin,
        (AddSite.standalone, 999000000) :: (procRun (999000000 + 2000000) []).adds⟩ :=
  ⟨by decide, c3_now_reduction.2.2 999000000 true [] (by decide)⟩

/-- Claim C4 (code evaluation at the failing input): with `-t` given the
tracker starts at the `INSTANT_UNKNOWN` sentinel, and a single standalone
`LocalTimestamp(delta = 1_999_999)` reaches the `now += 2_000_000` addition
with `now` equal to that sentinel — a value `≥ MAX` whose addition overflows
`u32` (`INSTANT_UNKNOWN + 2_000_000 ≥ 2^32`), wrapping to the fabricated
counter value `1_999_998`; the double-trace lookahead addition likewise
receives the sentinel. -/
theorem c4_sentinel_addition_eval :
    (procRun INSTANT_UNKNOWN [Item.pkt (Packet.localTimestamp 1999999 true)]).adds =
      [(AddSite.standalone, INSTANT_UNKNOWN)] ∧
    (procRun INSTANT_UNKNOWN [Item.pkt (Packet.localTimestamp 1999999 true)]).fin =
      1999998 ∧
    U32_MOD ≤ INSTANT_UNKNOWN + 2000000 ∧
    MAX ≤ INSTANT_UNKNOWN ∧
    (procRun INSTANT_UNKNOWN
        [Item.pkt (Packet.exceptionTrace ⟨15, Function.enter⟩),
          Item.pkt (Packet.exceptionTrace ⟨16, Function.exit⟩),
          Item.pkt (Packet.localTimestamp 1 true)]).adds =
      [(AddSite.double, INSTANT_UNKNOWN)] := by
  refine ⟨by decide, by decide, by decide, by decide, by decide⟩

/-- Claim C5 (counterexample): the reserved vectors 7 and 13 are not rendered
as reserved entries — they fall into the catch-all arm and its `u16`
subtraction `n - 16` underflows, wrapping to `IRQ(65527)` and `IRQ(65533)`. -/
theorem c5_counterexample :
    exceptionName 7 = "IRQ(65527)" ∧ exceptionName 13 = "IRQ(65533)" := ⟨rfl, rfl⟩

/-- Claim C5 (amended): the named vectors 0-6, 11, 12, 14 and 15 print their
table names and every vector `n ≥ 16` prints `IRQ(n - 16)`, but vectors
7-10 and 13 fall into the `IRQ` catch-all, whose `u16` subtraction `n - 16`
underflows (wrapping to `IRQ(65527)`..`IRQ(65530)` and `IRQ(65533)`). -/
theorem c5_name_table :
    (exceptionName 0 = "Thread" ∧ exceptionName 1 = "Reset" ∧
      exceptionName 2 = "NMI" ∧ exceptionName 3 = "HardFault" ∧
      exceptionName 4 = "MemManage" ∧ exceptionName 5 = "BusFault" ∧
      exceptionName 6 = "UsageFault" ∧ exceptionName 11 = "SVCall" ∧
      exceptionName 12 = "DebugMonitor" ∧ exceptionName 14 = "PendSV" ∧
      exceptionName 15 = "SysTick") ∧
    (∀ n : Nat, 16 ≤ n → n < U16_MOD →
        exceptionName n = "IRQ(" ++ Nat.repr (n - 16) ++ ")") ∧
    (exceptionName 7 = "IRQ(65527)" ∧ exceptionName 8 = "IRQ(65528)" ∧
      exceptionName 9 = "IRQ(65529)" ∧ exceptionName 10 = "IRQ(65530)" ∧
      exceptionName 13 = "IRQ(65533)") := by
  refine ⟨by decide, ?_, by decide⟩
  intro n h16 hlt
  have e : (n + U16_MOD - 16) % U16_MOD = n - 16 := by
    simp only [U16_MOD] at *
    omega
  simp only [exceptionName]
  repeat rw [if_neg (by omega)]
  rw [e]

/-- Witness for the amended claim C5 at the external interrupt vector 58. -/
theorem c5_witness :
    16 ≤ 58 ∧ 58 < U16_MOD ∧ exceptionName 58 = "IRQ(" ++ Nat.repr (58 - 16) ++ ")" :=
  ⟨by decide, by decide, c5_name_table.2.1 58 (by decide) (by decide)⟩

/-- Claim C6: from `Known{now = N}` with `N < MAX`, the input
`[ExceptionTrace(A), ExceptionTrace(B), LocalTimestamp(d, p)]` produces
exactly the two reports `A` then `B`, both `Known` with `(N + d) % MAX`, `A`
imprecise and `B` carrying `p` (the side condition `N + d < 2^32` rules out
the `u32` overflow of the wrapping addition; actual local-timestamp deltas
are far below it). -/
theorem c6_double_trace_pairing (N d : Nat) (p : Bool) (A B : ExceptionTrace)
    (rest : List Item) (hN : N < MAX) (hOv : N + d < U32_MOD) :
    procRun N
        (Item.pkt (Packet.exceptionTrace A) :: Item.pkt (Packet.exceptionTrace B) ::
          Item.pkt (Packet.localTimestamp d p) :: rest) =
      ⟨⟨A, Instant.Known ((N + d) % MAX) false⟩ ::
          ⟨B, Instant.Known ((N + d) % MAX) p⟩ ::
          (procRun ((N + d) % MAX) rest).reports,
        (procRun ((N + d) % MAX) rest).fin,
        (AddSite.double, N) :: (procRun ((N + d) % MAX) rest).adds⟩ := by
  have h1 : N ≠ INSTANT_DISABLED := by
    simp only [INSTANT_DISABLED]
    simp only [MAX] at hN
    omega
  have h2 : wrap32 (N + d) = N + d := Nat.mod_eq_of_lt hOv
  simp [procRun, proc, h1, h2]

/-- Witness for claim C6 at `N = 100`, `d = 23`, `p = true`. -/
theorem c6_witness :
    100 < MAX ∧ 100 + 23 < U32_MOD ∧
    procRun 100
        [Item.pkt (Packet.exceptionTrace ⟨2, Function.enter⟩),
          Item.pkt (Packet.exceptionTrace ⟨16, Function.ret⟩),
          Item.pkt (Packet.localTimestamp 23 true)] =
      ⟨⟨⟨2, Function.enter⟩, Instant.Known ((100 + 23) % MAX) false⟩ ::
          ⟨⟨16, Function.ret⟩, Instant.Known ((100 + 23) % MAX) true⟩ ::
          (procRun ((100 + 23) % MAX) []).reports,
        (procRun ((100 + 23) % MAX) []).fin,
        (AddSite.double, 100) :: (procRun ((100 + 23) % MAX) []).adds⟩ :=
  ⟨by decide, by decide,
    c6_double_trace_pairing 100 23 true ⟨2, Function.enter⟩ ⟨16, Function.ret⟩ []
      (by decide) (by decide)⟩

/-- Claim C7: from the `Unknown` tracker state, `[ExceptionTrace(A),
LocalTimestamp(d, p)]` yields exactly one report for `A`, classified `Reset`
(a classification distinct from `Unknown` and from every `Known`), and the
rest of the stream is processed from the `Known` state `now = 0`. -/
theorem c7_resync_reset (A : ExceptionTrace) (d : Nat) (p : Bool) (rest : List Item) :
    procRun INSTANT_UNKNOWN
        (Item.pkt (Packet.exceptionTrace A) ::
          Item.pkt (Packet.localTimestamp d p) :: rest) =
      ⟨⟨A, Instant.Reset⟩ :: (procRun 0 rest).reports, (procRun 0 rest).fin,
        (procRun 0 rest).adds⟩ ∧
    Instant.Reset ≠ Instant.Unknown ∧
    (∀ (m : Nat) (q : Bool), Instant.Reset ≠ Instant.Known m q) ∧
    isKnownState 0 ∧ 0 < MAX := by
  refine ⟨rfl, by decide, ?_, by decide, by decide⟩
  intro m q
  simp

/-- Claim C8 (counterexample): a standalone `LocalTimestamp` with the magic
delta `1_999_999` arriving in the `Unknown` state still takes the wraparound
path: the tracker was not `Known` before, and the wrapping `u32` addition on
the sentinel leaves the fabricated `Known` encoding `1_999_998` — the state
neither "remains Known" nor is forced to `Unknown`. -/
theorem c8_counterexample :
    ¬ isKnownState INSTANT_UNKNOWN ∧
    procRun INSTANT_UNKNOWN [Item.pkt (Packet.localTimestamp 1999999 true)] =
      ⟨[], 1999998, [(AddSite.standalone, INSTANT_UNKNOWN)]⟩ ∧
    isKnownState 1999998 ∧
    1999998 ≠ INSTANT_UNKNOWN + 2000000 := by
  refine ⟨by decide, by decide, by decide, by decide⟩

/-- Claim C8 (amended): for a standalone `LocalTimestamp`, (1) from `Disabled`
the tracker moves to `Unknown`; (2) from a `Known` state, delta `1_999_999`
adds `2_000_000` to `now` and the state stays `Known`; (3) from `Unknown`,
delta `1_999_999` also triggers the addition, on the sentinel itself, leaving
the wrapped value `1_999_998`; (4) any other delta in a non-`Disabled` state
forces `Unknown`. -/
theorem c8_standalone_transitions :
    (∀ (d : Nat) (p : Bool) (rest : List Item),
        procRun INSTANT_DISABLED (Item.pkt (Packet.localTimestamp d p) :: rest) =
          procRun INSTANT_UNKNOWN rest) ∧
    (∀ (now : Nat) (p : Bool) (rest : List Item),
        now ≠ INSTANT_DISABLED → now ≠ INSTANT_UNKNOWN →
        now + 2000000 < INSTANT_UNKNOWN →
        procRun now (Item.pkt (Packet.localTimestamp 1999999 p) :: rest) =
          ⟨(procRun (now + 2000000) rest).reports, (procRun (now + 2000000) rest).fin,
            (AddSite.standalone, now) :: (procRun (now + 2000000) rest).adds⟩ ∧
        isKnownState (now + 2000000)) ∧
    (∀ (p : Bool) (rest : List Item),
        procRun INSTANT_UNKNOWN (Item.pkt (Packet.localTimestamp 1999999 p) :: rest) =
          ⟨(procRun 1999998 rest).reports, (procRun 1999998 rest).fin,
            (AddSite.standalone, INSTANT_UNKNOWN) :: (procRun 1999998 rest).adds⟩) ∧
    (∀ (now d : Nat) (p : Bool) (rest : List Item),
        d ≠ 1999999 → now ≠ INSTANT_DISABLED →
        procRun now (Item.pkt (Packet.localTimestamp d p) :: rest) =
          procRun INSTANT_UNKNOWN rest) := by
  refine ⟨?_, ?_, ?_, ?_⟩
  · intro d p rest
    simp [procRun, proc]
  · intro now p rest h1 h2 h3
    have hw : wrap32 (now + 2000000) = now + 2000000 := by
      apply Nat.mod_eq_of_lt
      simp only [U32_MOD]
      simp only [INSTANT_UNKNOWN] at h3
      omega
    have hk : isKnownState (now + 2000000) := by
      simp only [INSTANT_UNKNOWN] at h3
      exact ⟨by simp only [INSTANT_DISABLED]; omega, by simp only [INSTANT_UNKNOWN]; omega⟩
    exact ⟨by simp [procRun, proc, h1, hw], hk⟩
  · intro p rest
    have hw : wrap32 (INSTANT_UNKNOWN + 2000000) = 1999998 := by decide
    have hne : INSTANT_UNKNOWN ≠ INSTANT_DISABLED := by decide
    simp [procRun, proc, hw, hne]
  · intro now d p rest hd h1
    simp [procRun, proc, h1, hd]

/-- Witness for the amended claim C8 at the `Known` state `now = 500`. -/
theorem c8_witness :
    (500 ≠ INSTANT_DISABLED ∧ 500 ≠ INSTANT_UNKNOWN ∧
      500 + 2000000 < INSTANT_UNKNOWN) ∧
    procRun 500 [Item.pkt (Packet.localTimestamp 1999999 true)] =
      ⟨(procRun (500 + 2000000) []).reports, (procRun (500 + 2000000) []).fin,
        (AddSite.standalone, 500) :: (procRun (500 + 2000000) []).adds⟩ ∧
    isKnownState (500 + 2000000) :=
  ⟨⟨by decide, by decide, by decide⟩,
    c8_standalone_transitions.2.1 500 true [] (by decide) (by decide) (by decide)⟩

/-- Claim C9: if the stream ends while one exception trace (end of stream
during the first lookahead pull) or two exception traces (end of stream
during the second lookahead pull) are buffered, each buffered trace is still
emitted exactly once, classified `Unknown`, before the loop terminates. -/
theorem c9_eof_flush (now : Nat) (A B : ExceptionTrace) (h : now ≠ INSTANT_DISABLED) :
    procRun now [Item.pkt (Packet.exceptionTrace A)] =
      ⟨[⟨A, Instant.Unknown⟩], now, []⟩ ∧
    procRun now [Item.pkt (Packet.exceptionTrace A), Item.pkt (Packet.exceptionTrace B)] =
      ⟨[⟨A, Instant.Unknown⟩, ⟨B, Instant.Unknown⟩], now, []⟩ := by
  constructor <;> simp [procRun, proc, h]

/-- Witness for claim C9 from the `Unknown` tracker state. -/
theorem c9_witness :
    INSTANT_UNKNOWN ≠ INSTANT_DISABLED ∧
    procRun INSTANT_UNKNOWN [Item.pkt (Packet.exceptionTrace ⟨15, Function.enter⟩)] =
      ⟨[⟨⟨15, Function.enter⟩, Instant.Unknown⟩], INSTANT_UNKNOWN, []⟩ ∧
    procRun INSTANT_UNKNOWN
        [Item.pkt (Packet.exceptionTrace ⟨15, Function.enter⟩),
          Item.pkt (Packet.exceptionTrace ⟨15, Function.exit⟩)] =
      ⟨[⟨⟨15, Function.enter⟩, Instant.Unknown⟩,
          ⟨⟨15, Function.exit⟩, Instant.Unknown⟩], INSTANT_UNKNOWN, []⟩ :=
  ⟨by decide,
    (c9_eof_flush INSTANT_UNKNOWN ⟨15, Function.enter⟩ ⟨15, Function.exit⟩ (by decide)).1,
    (c9_eof_flush INSTANT_UNKNOWN ⟨15, Function.enter⟩ ⟨15, Function.exit⟩ (by decide)).2⟩

/-- Claim C10: the first output line is the header `" TIMESTAMP   EXCEPTION"`,
and every subsequent line is the formatting of one report following the
spec's table (`" ????????? {arrow} {name}"` for Unknown, `"!000000000 {arrow}
{name}"` for Reset, `"{marker}{now:09d} {arrow} {name}"` for Known with `=`
marker when precise and `<` when imprecise, arrow `→`/`←`/`↓` for
Enter/Exit/Return). -/
theorem c10_output_format :
    (∀ (timestamp : Bool) (items : List Item),
        runOutput timestamp items =
          " TIMESTAMP   EXCEPTION" ::
            (procRun (initNow timestamp) items).reports.map specFormatLine) ∧
    (∀ (et : ExceptionTrace) (i : Instant), reportLine et i = specFormatLine ⟨et, i⟩) := by
  have key : ∀ (et : ExceptionTrace) (i : Instant), reportLine et i = specFormatLine ⟨et, i⟩ := by
    intro et i
    rcases et with ⟨n, f⟩
    rcases f <;> rcases i <;> rfl
  refine ⟨?_, key⟩
  intro t items
  simp only [runOutput, headerLine]
  have hfun : (fun r : Report => reportLine r.et r.instant) = specFormatLine := by
    funext r
    rcases r with ⟨et, i⟩
    exact key et i
  rw [hfun]

end Excevt
